import Mathlib

/-!
Verification development for the `python-backend` media-download service.

Shallow embedding of the task-tracking core:
  * `src/app/models/schemas.py`   — the `Progress`, `DownloadTask`, `DownloadRequest` records
  * `src/app/services/download_service.py` — the registry (`download_tasks` dict),
    `ProgressReporter.update_progress`, `ProgressReporter.set_status`,
    `initiate_download_task`, `perform_download`, `get_download_status`
  * `src/app/api/v1/endpoints/downloads.py` — `start_download`, `get_downloaded_file`

Modelling conventions:
  * Python `float` percent values are modelled as `Rat` (the claims under study
    involve only ordering and exact storage, no rounding behaviour).
  * `datetime.utcnow()` is modelled as an opaque `Nat` tick passed in by the caller.
  * The `yt_dlp` collaborator is opaque: a run of `perform_download` is parametrised
    by a `CollabOutcome` — the sequence of progress-hook callbacks the collaborator
    issues followed by either a normal return or a raised exception message — and by
    the result of the last-resort filename-prediction fallback (lines 241-251 of
    `download_service.py`), itself an opaque filesystem probe.
  * The registry `download_tasks : Dict[str, DownloadTask]` is an association list;
    `regGet` is `dict.get`, `regMutate` is the in-place field mutation Python performs
    on a record previously obtained by `get` (a no-op when the id is absent, exactly
    like the `if task:` guards in the source), `regInsert` is `d[k] = v` for a fresh key.
-/

/-- `Progress` (schemas.py lines 15-19): the mutable progress sub-record. -/
structure Progress where
  percent : Rat
  eta : String
  speed : String
  status_message : String
  deriving DecidableEq

/-- `DownloadTask` (schemas.py lines 42-54).  The opaque `MediaInfo` metadata field
`info` is never written by the service code and is modelled as an opaque string. -/
structure DownloadTask where
  id : String
  url : String
  format : Option String
  quality : Option String
  browser : Option String
  status : String
  progress : Progress
  info : Option String
  filepath : Option String
  error : Option String
  startTime : Nat
  endTime : Option Nat
  deriving DecidableEq

/-- `DownloadRequest` (schemas.py lines 7-12), after pydantic validation:
`url` is the validated HttpUrl rendered as a string. -/
structure DownloadRequest where
  url : String
  format : Option String
  quality : Option String
  browserForCookies : Option String
  proxy : Option String
  deriving DecidableEq

/-- The registry `download_tasks : Dict[str, DownloadTask]`
(download_service.py line 16), as an association list. -/
abbrev Registry := List (String × DownloadTask)

/-- `download_tasks.get(task_id)` — point lookup. -/
def regGet (r : Registry) (task_id : String) : Option DownloadTask :=
  (r.find? (fun p => p.1 == task_id)).map (fun p => p.2)

/-- In-place mutation of the record held under `task_id`, as Python performs when a
handler obtained the record via `.get(...)` and assigns to its fields.  A no-op when
the id is absent (the source guards every mutation with `if task:`). -/
def regMutate (r : Registry) (task_id : String) (f : DownloadTask → DownloadTask) : Registry :=
  r.map (fun p => if p.1 = task_id then (p.1, f p.2) else p)

/-- `download_tasks[task_id] = task` for a fresh key (dict insertion). -/
def regInsert (r : Registry) (task_id : String) (t : DownloadTask) : Registry :=
  (task_id, t) :: r

theorem regGet_mutate_self (r : Registry) (task_id : String) (f : DownloadTask → DownloadTask) :
    regGet (regMutate r task_id f) task_id = (regGet r task_id).map f := by
  induction r with
  | nil => rfl
  | cons p r ih =>
    by_cases h : p.1 = task_id
    · simp [regMutate, regGet, List.find?_cons, h]
    · have hb : (p.1 == task_id) = false := by simp [h]
      simp only [regMutate, List.map_cons, if_neg h, regGet, List.find?_cons, hb] at ih ⊢
      exact ih

theorem regGet_mutate_ne (r : Registry) (task_id other : String)
    (f : DownloadTask → DownloadTask) (h : other ≠ task_id) :
    regGet (regMutate r task_id f) other = regGet r other := by
  induction r with
  | nil => rfl
  | cons p r ih =>
    simp only [regMutate, List.map_cons] at ih ⊢
    by_cases hp : p.1 = task_id
    · rw [if_pos hp]
      have hb : (p.1 == other) = false := by
        rw [beq_eq_false_iff_ne, hp]
        exact fun e => h e.symm
      simp only [regGet, List.find?_cons, hb] at ih ⊢
      exact ih
    · rw [if_neg hp]
      simp only [regGet, List.find?_cons] at ih ⊢
      cases hpo : (p.1 == other) with
      | true => simp only [hpo]
      | false => simp only [hpo] at ih ⊢; exact ih

theorem regGet_insert_self (r : Registry) (task_id : String) (t : DownloadTask) :
    regGet (regInsert r task_id t) task_id = some t := by
  simp [regInsert, regGet, List.find?_cons]

theorem regGet_insert_ne (r : Registry) (task_id other : String) (t : DownloadTask)
    (h : other ≠ task_id) :
    regGet (regInsert r task_id t) other = regGet r other := by
  have hb : (task_id == other) = false := by
    rw [beq_eq_false_iff_ne]
    exact fun e => h e.symm
  simp [regInsert, regGet, List.find?_cons, hb]

theorem length_regInsert (r : Registry) (task_id : String) (t : DownloadTask) :
    (regInsert r task_id t).length = r.length + 1 := rfl

/-- `os.path.basename` on POSIX: the part of the path after the last slash
(`basename "a/b/c" = "c"`, `basename "a/" = ""`, `basename "c" = "c"`). -/
def basenameChars (cs : List Char) : List Char :=
  cs.foldl (fun acc c => if c = '/' then [] else acc ++ [c]) []

def basename (p : String) : String :=
  String.mk (basenameChars p.data)

/-- `ProgressReporter.update_progress` (download_service.py lines 23-34): looks the
task up through the registry and overwrites the four fields of its `progress`
sub-record.  (The source's `isinstance` guard only re-normalises an ill-typed
`progress` value; in the typed embedding `progress` is always a `Progress`.)
No other field of the record is touched; absent id is a no-op. -/
def update_progress (tasks : Registry) (task_id : String) (percent : Rat)
    (eta speed status_message : String) : Registry :=
  regMutate tasks task_id (fun task =>
    { task with progress :=
        { percent := percent, eta := eta, speed := speed, status_message := status_message } })

/-- `task.filepath = os.path.basename(filepath) if filepath else None`
(download_service.py line 42) — the Python truthiness test makes both `None` and the
empty string map to `None`. -/
def filepathStore (filepath : Option String) : Option String :=
  match filepath with
  | some fp => if fp = "" then none else some (basename fp)
  | none => none

/-- `ProgressReporter.set_status` (download_service.py lines 36-44): unconditionally
overwrites `status`, `error`, `filepath` and `endTime` of the record when present. -/
def set_status (tasks : Registry) (task_id : String) (status : String)
    (error : Option String) (filepath : Option String) (now : Nat) : Registry :=
  regMutate tasks task_id (fun task =>
    { task with
      status := status
      error := error
      filepath := filepathStore filepath
      endTime := some now })

/-- `initiate_download_task` (download_service.py lines 92-108): allocates a fresh
uuid (modelled as the `task_id` argument, fresh by hypothesis at use sites), inserts
a `queued` record with zeroed progress, schedules `perform_download` as a detached
background task (the scheduled work has not run when the function returns), and
returns the id. -/
def initiate_download_task (tasks : Registry) (task_id : String)
    (request : DownloadRequest) (now : Nat) : String × Registry :=
  (task_id,
   regInsert tasks task_id
     { id := task_id
       url := request.url
       format := request.format
       quality := request.quality
       browser := request.browserForCookies
       status := "queued"
       progress := { percent := 0, eta := "N/A", speed := "N/A", status_message := "Queued" }
       info := none
       filepath := none
       error := none
       startTime := now
       endTime := none })

/-- `get_download_status` (download_service.py lines 266-267). -/
def get_download_status (tasks : Registry) (task_id : String) : Option DownloadTask :=
  regGet tasks task_id

/-- The info dictionary `d` a `finished` progress hook receives (and that
`perform_download` stores into `final_info_dict`): the keys the path-resolution
code reads.  `filepath_u` is the `'_filepath'` entry (`none` when the key is
absent); `requested_downloads` is the list of `['requested_downloads'][i]['filepath']`
values (`none` when the key is absent). -/
structure InfoDict where
  filepath_u : Option String
  requested_downloads : Option (List String)
  deriving DecidableEq

/-- One invocation of `progress_hook` (download_service.py lines 125-149) by the
collaborator.  For a `'downloading'` callback, `percent` is the float parsed from
the ANSI-stripped `_percent_str` (with `'N/A'`/empty parsing to `0.0`) and
`percentStr` the cleaned string used in the status message. -/
inductive HookEvent where
  | downloading (percent : Rat) (percentStr eta speed filename : String)
  | finished (d : InfoDict)
  deriving DecidableEq

/-- Behaviour of the opaque `ydl.download` collaborator call for one run: the hook
callbacks it issues in order, then either a normal return (`ok`) or a raised
`DownloadError`/`Exception` whose `str` is `msg` (`err`). -/
inductive CollabOutcome where
  | ok (events : List HookEvent)
  | err (events : List HookEvent) (msg : String)
  deriving DecidableEq

def CollabOutcome.events : CollabOutcome → List HookEvent
  | .ok es => es
  | .err es _ => es

/-- `task.status = "downloading"` (download_service.py line 117): a direct field
write on the record fetched at the top of `perform_download`; touches no other field. -/
def set_running (tasks : Registry) (task_id : String) : Registry :=
  regMutate tasks task_id (fun task => { task with status := "downloading" })

/-- Registry effect of one `progress_hook` invocation: a `'downloading'` callback
forwards to `update_progress` with the formatted message; a `'finished'` callback
calls `reporter.set_status("post-processing")` (no error, no filepath). -/
def apply_hook (tasks : Registry) (task_id : String) (now : Nat) : HookEvent → Registry
  | .downloading percent percentStr eta speed filename =>
      update_progress tasks task_id percent eta speed
        ("Downloading: " ++ filename ++ " " ++ percentStr ++ "%")
  | .finished _ => set_status tasks task_id "post-processing" none none now

/-- `final_info_dict` after the run: overwritten by each `finished` hook, so it ends
as the last `finished` event's dictionary (or `None` when no hook fired `finished`). -/
def final_info (events : List HookEvent) : Option InfoDict :=
  events.foldl
    (fun acc e => match e with
      | .finished d => some d
      | .downloading _ _ _ _ _ => acc)
    none

/-- Path resolution after a successful collaborator return (download_service.py
lines 231-251).  `fallback` is the outcome of the last-resort prediction block
(lines 241-251): `some p` when `ydl.prepare_filename` produced a path that exists on
disk, `none` when the predicted file was missing or the re-extraction raised (both
set `downloaded_file_full_path = None` in the source).  A `.get(...)` truthiness
test means an empty-string `'_filepath'` falls through to the next strategy. -/
def resolve_final_path (fi : Option InfoDict) (fallback : Option String) : Option String :=
  match fi with
  | some d =>
    match d.filepath_u with
    | some p =>
      if p = "" then
        match d.requested_downloads with
        | some (q :: _) => some q
        | _ => fallback
      else some p
    | none =>
      match d.requested_downloads with
      | some (q :: _) => some q
      | _ => fallback
  | none => fallback

/-- The message of the exception raised at download_service.py line 254 and then
caught by the unit's own `except` clause. -/
def unresolvedPathMsg : String :=
  "Could not determine final downloaded file path after completion."

/-- The `if not downloaded_file_full_path: raise` / `reporter.set_status("completed", ...)`
tail (download_service.py lines 253-256), given the resolved path: a falsy
(`None` or empty) resolution raises the unresolved-path exception, which the
`except Exception` clause turns into a `failed` report. -/
def report_final (tasks : Registry) (task_id : String) (resolved : Option String)
    (now : Nat) : Registry :=
  match resolved with
  | some p =>
    if p = "" then set_status tasks task_id "failed" (some unresolvedPathMsg) none now
    else set_status tasks task_id "completed" none (some p) now
  | none => set_status tasks task_id "failed" (some unresolvedPathMsg) none now

/-- Tail of the `try` block plus the two `except` clauses (download_service.py
lines 229-264), applied to the registry state after all hooks have run:
on a raised collaborator error, `reporter.set_status("failed", error=str(e))`;
on normal return, resolve the final path and report through `report_final`. -/
def finish_run (tasks : Registry) (task_id : String) (outcome : CollabOutcome)
    (fallback : Option String) (now : Nat) : Registry :=
  match outcome with
  | .err _ msg => set_status tasks task_id "failed" (some msg) none now
  | .ok events =>
    report_final tasks task_id (resolve_final_path (final_info events) fallback) now

/-- `perform_download` (download_service.py lines 110-264): returns unchanged when
the id is unknown (lines 111-114); otherwise sets the record's status to
`"downloading"`, lets the collaborator run (its hook callbacks mutate the registry
in order through the `ProgressReporter`), then finishes the run as `finish_run`
describes.  The construction of `ydl_opts` (lines 152-206) only configures the
opaque collaborator and performs no registry mutation, so it is absorbed into the
`outcome` parameter.  Totality of this function is the formal counterpart of the
source's unit-boundary `except` clauses: every raising path inside the `try` block
ends in a `set_status("failed", ...)` branch and nothing propagates. -/
def perform_download (tasks : Registry) (task_id : String) (outcome : CollabOutcome)
    (fallback : Option String) (now : Nat) : Registry :=
  match regGet tasks task_id with
  | none => tasks
  | some _ =>
    let t1 := set_running tasks task_id
    let t2 := outcome.events.foldl (fun r e => apply_hook r task_id now e) t1
    finish_run t2 task_id outcome fallback now

/-- The per-record effect of one hook invocation, extracted from `apply_hook`:
a `downloading` callback rewrites the four `progress` fields, a `finished` callback
is `set_status("post-processing")`, which also clears `error`/`filepath` and stamps
`endTime`. -/
def hookFn (now : Nat) : HookEvent → DownloadTask → DownloadTask
  | .downloading percent percentStr eta speed filename => fun task =>
      { task with progress :=
          { percent := percent, eta := eta, speed := speed,
            status_message := "Downloading: " ++ filename ++ " " ++ percentStr ++ "%" } }
  | .finished _ => fun task =>
      { task with
        status := "post-processing"
        error := none
        filepath := none
        endTime := some now }

theorem apply_hook_eq (tasks : Registry) (task_id : String) (now : Nat) (e : HookEvent) :
    apply_hook tasks task_id now e = regMutate tasks task_id (hookFn now e) := by
  cases e <;> rfl

/-- Running the whole hook sequence over the registry acts on the single record
under `task_id` as the corresponding fold of per-record effects. -/
theorem regGet_hook_foldl (task_id : String) (now : Nat) (es : List HookEvent) :
    ∀ r : Registry,
      regGet (es.foldl (fun acc e => apply_hook acc task_id now e) r) task_id
        = (regGet r task_id).map (fun t => es.foldl (fun t e => hookFn now e t) t) := by
  induction es with
  | nil =>
    intro r
    simp only [List.foldl_nil]
    cases regGet r task_id <;> rfl
  | cons e es ih =>
    intro r
    rw [List.foldl_cons, ih, apply_hook_eq, regGet_mutate_self]
    cases regGet r task_id <;> rfl

/-- The per-record hook effects keep the status inside `{downloading, post-processing}`. -/
theorem foldl_hookFn_status (now : Nat) (es : List HookEvent) :
    ∀ t : DownloadTask,
      (t.status = "downloading" ∨ t.status = "post-processing") →
      ((es.foldl (fun t e => hookFn now e t) t).status = "downloading" ∨
       (es.foldl (fun t e => hookFn now e t) t).status = "post-processing") := by
  induction es with
  | nil => intro t h; exact h
  | cons e es ih =>
    intro t h
    rw [List.foldl_cons]
    refine ih _ ?_
    cases e with
    | downloading percent percentStr eta speed filename => exact h
    | finished d => exact Or.inr rfl

/-- The status a poller reads for `task_id` in a registry state (empty when absent;
never hit on the traces we study, which preserve record presence). -/
def statusD (task_id : String) (r : Registry) : String :=
  ((regGet r task_id).map DownloadTask.status).getD ""

/-- The intermediate registry states produced while the hook sequence runs, one per
hook invocation, in order. -/
def hook_states (r : Registry) (task_id : String) (now : Nat) : List HookEvent → List Registry
  | [] => []
  | e :: es =>
    apply_hook r task_id now e :: hook_states (apply_hook r task_id now e) task_id now es

theorem hook_states_foldl (task_id : String) (now : Nat) (es : List HookEvent) :
    ∀ r : Registry,
      (hook_states r task_id now es).getLastD r
        = es.foldl (fun acc e => apply_hook acc task_id now e) r := by
  induction es with
  | nil => intro r; rfl
  | cons e es ih =>
    intro r
    rw [List.foldl_cons, hook_states, List.getLastD_cons]
    exact ih _

/-- Every registry state a poller can observe during one `perform_download` run:
the state after `task.status = "downloading"`, the state after each hook callback,
and the state after the run's terminal report. -/
def run_trace (tasks : Registry) (task_id : String) (outcome : CollabOutcome)
    (fallback : Option String) (now : Nat) : List Registry :=
  match regGet tasks task_id with
  | none => []
  | some _ =>
    let t1 := set_running tasks task_id
    let t2 := outcome.events.foldl (fun r e => apply_hook r task_id now e) t1
    (t1 :: hook_states t1 task_id now outcome.events) ++ [finish_run t2 task_id outcome fallback now]

/-- The status sequence a poller observes for `task_id` over one run. -/
def observed_statuses (tasks : Registry) (task_id : String) (outcome : CollabOutcome)
    (fallback : Option String) (now : Nat) : List String :=
  (run_trace tasks task_id outcome fallback now).map (statusD task_id)

/-- The spec's status ordering `queued < running ≤ post_processing < {completed, failed}`,
with the code's status strings (`"downloading"` realises the spec's `running`,
`"post-processing"` its `post_processing`). -/
def statusRank (s : String) : Nat :=
  if s = "queued" then 0
  else if s = "downloading" then 1
  else if s = "post-processing" then 2
  else if s = "completed" then 3
  else if s = "failed" then 3
  else 4

theorem basenameChars_no_slash (cs : List Char) : '/' ∉ basenameChars cs := by
  have key : ∀ (cs acc : List Char), '/' ∉ acc →
      '/' ∉ cs.foldl (fun acc c => if c = '/' then [] else acc ++ [c]) acc := by
    intro cs
    induction cs with
    | nil => intro acc h; exact h
    | cons c cs ih =>
      intro acc h
      rw [List.foldl_cons]
      by_cases hc : c = '/'
      · rw [if_pos hc]
        exact ih [] (by simp)
      · rw [if_neg hc]
        refine ih _ ?_
        intro hm
        rcases List.mem_append.mp hm with h1 | h2
        · exact h h1
        · exact hc (List.mem_singleton.mp h2).symm
  exact key _ [] (by simp)

theorem basename_no_slash (p : String) : '/' ∉ (basename p).data :=
  basenameChars_no_slash p.data

theorem regGet_set_status (tasks : Registry) (task_id st : String)
    (err fp : Option String) (now : Nat) :
    regGet (set_status tasks task_id st err fp now) task_id
      = (regGet tasks task_id).map (fun t =>
          { t with
            status := st
            error := err
            filepath := filepathStore fp
            endTime := some now }) := by
  rw [set_status, regGet_mutate_self]

theorem regGet_set_running (tasks : Registry) (task_id : String) :
    regGet (set_running tasks task_id) task_id
      = (regGet tasks task_id).map (fun t => { t with status := "downloading" }) := by
  rw [set_running, regGet_mutate_self]

theorem regGet_update_progress (tasks : Registry) (task_id : String) (percent : Rat)
    (eta speed msg : String) :
    regGet (update_progress tasks task_id percent eta speed msg) task_id
      = (regGet tasks task_id).map (fun t =>
          { t with progress :=
              { percent := percent, eta := eta, speed := speed, status_message := msg } }) := by
  rw [update_progress, regGet_mutate_self]

/-- Whatever the outcome, the run's terminal report leaves the record present with a
terminal status. -/
theorem finish_run_status (tasks : Registry) (task_id : String) (outcome : CollabOutcome)
    (fallback : Option String) (now : Nat) (t : DownloadTask)
    (h : regGet tasks task_id = some t) :
    statusD task_id (finish_run tasks task_id outcome fallback now) = "failed" ∨
    statusD task_id (finish_run tasks task_id outcome fallback now) = "completed" := by
  cases outcome with
  | err es msg =>
    left
    rw [finish_run, statusD, regGet_set_status, h]
    rfl
  | ok events =>
    rw [finish_run]
    cases hres : resolve_final_path (final_info events) fallback with
    | none =>
      left
      rw [report_final, statusD, regGet_set_status, h]
      rfl
    | some p =>
      by_cases hp : p = ""
      · left
        rw [report_final, if_pos hp, statusD, regGet_set_status, h]
        rfl
      · right
        rw [report_final, if_neg hp, statusD, regGet_set_status, h]
        rfl

/-- Along the hook sequence, the observed status stays in
`{downloading, post-processing}` and never decreases in rank. -/
theorem hook_states_status (task_id : String) (now : Nat) (es : List HookEvent) :
    ∀ (r : Registry) (t : DownloadTask), regGet r task_id = some t →
      (t.status = "downloading" ∨ t.status = "post-processing") →
      (∀ s ∈ (hook_states r task_id now es).map (statusD task_id),
          s = "downloading" ∨ s = "post-processing") ∧
      List.Chain' (fun a b => statusRank a ≤ statusRank b)
        (t.status :: (hook_states r task_id now es).map (statusD task_id)) := by
  induction es with
  | nil =>
    intro r t _ _
    exact ⟨by simp [hook_states], by simp [hook_states]⟩
  | cons e es ih =>
    intro r t h hmem
    have hstep : regGet (apply_hook r task_id now e) task_id = some (hookFn now e t) := by
      rw [apply_hook_eq, regGet_mutate_self, h]
      rfl
    have hd : statusD task_id (apply_hook r task_id now e) = (hookFn now e t).status := by
      rw [statusD, hstep]
      rfl
    have hmem' : (hookFn now e t).status = "downloading" ∨
        (hookFn now e t).status = "post-processing" := by
      cases e with
      | downloading percent percentStr eta speed filename => exact hmem
      | finished d => exact Or.inr rfl
    have hrank : statusRank t.status ≤ statusRank (hookFn now e t).status := by
      cases e with
      | downloading percent percentStr eta speed filename => exact le_refl _
      | finished d =>
        have hpp : (hookFn now (HookEvent.finished d) t).status = "post-processing" := rfl
        rcases hmem with h1 | h1 <;> rw [h1, hpp] <;> decide
    obtain ⟨ihmem, ihchain⟩ := ih (apply_hook r task_id now e) (hookFn now e t) hstep hmem'
    constructor
    · intro s hs
      rw [hook_states, List.map_cons] at hs
      rcases List.mem_cons.mp hs with h1 | h1
      · rw [h1, hd]
        exact hmem'
      · exact ihmem s h1
    · rw [hook_states, List.map_cons, List.chain'_cons]
      refine ⟨?_, ?_⟩
      · rw [hd]; exact hrank
      · rw [hd]
        exact ihchain

/-- Raw `/start` request body before pydantic validation of `DownloadRequest`
(schemas.py lines 7-12): `none` models an absent field. -/
structure RawDownloadRequest where
  url : Option String
  format : Option String
  quality : Option String
  browserForCookies : Option String
  proxy : Option String
  deriving DecidableEq

/-- Pydantic validation of `DownloadRequest`: `url : HttpUrl` is a required field, so
an absent or empty url is rejected with a 422 before the handler body runs (an empty
string is not a valid `HttpUrl`; full URL-shape validation is stricter still, but the
claims under study only exercise the missing/empty case).  `format` and `quality`
take their declared defaults when absent. -/
def validate_request (raw : RawDownloadRequest) : Except String DownloadRequest :=
  match raw.url with
  | none => Except.error "field required: url"
  | some u =>
    if u = "" then Except.error "invalid HttpUrl: empty"
    else Except.ok
      { url := u
        format := some (raw.format.getD "mp4")
        quality := some (raw.quality.getD "bestvideo+bestaudio/best")
        browserForCookies := raw.browserForCookies
        proxy := raw.proxy }

/-- `start_download` (downloads.py lines 26-43) at the framework boundary: pydantic
validation first; then the handler's own `if not request.url` guard (downloads.py
lines 29-30, unreachable after validation but kept faithfully); then
`initiate_download_task`.  Returns the HTTP outcome paired with the registry the
request leaves behind: a validation failure returns the registry unchanged. -/
def start_download (tasks : Registry) (raw : RawDownloadRequest) (fresh_id : String)
    (now : Nat) : Except String String × Registry :=
  match validate_request raw with
  | Except.error e => (Except.error e, tasks)
  | Except.ok request =>
    if request.url = "" then (Except.error "URL is required.", tasks)
    else
      let r := initiate_download_task tasks fresh_id request now
      (Except.ok r.1, r.2)

/-- Abstract filesystem for the artifact-retrieval endpoint: `isFile` is
`Path.is_file()` (a `stat` probe), `resolve` is `Path.resolve()` (symlink and `..`
resolution; itself a filesystem operation, but the claims only order accesses by
the `is_file` probe and the final open). -/
structure FileSystem where
  isFile : String → Bool
  resolve : String → String

/-- One filesystem access made by `get_downloaded_file`, in program order. -/
inductive FsAccess where
  | isFileCheck (p : String)
  | resolveCall (p : String)
  | openFile (p : String)
  deriving DecidableEq

/-- HTTP outcome of `get_downloaded_file`. -/
inductive ServeResult where
  | notFound
  | badRequest
  | served (path : String) (filename : String)
  deriving DecidableEq

/-- Python's `str.startswith` (the test `downloads.py` line 73 performs on the two
resolved path strings), character by character. -/
def str_startswith (s pre : String) : Bool :=
  pre.data.isPrefixOf s.data

/-- `pathlib`'s `/` join: an absolute right operand replaces the left. -/
def path_join (dir name : String) : String :=
  if str_startswith name "/" then name else dir ++ "/" ++ name

/-- `get_downloaded_file` (downloads.py lines 60-78), instrumented with the ordered
list of filesystem accesses it performs: first `file_path.is_file()` (404 when
false); then the traversal guard — a string-prefix test of
`str(file_path.resolve())` against `str(settings.DOWNLOAD_DIR.resolve())` (400 when
it fails); finally `FileResponse` opens and serves the file. -/
def get_downloaded_file (fs : FileSystem) (downloadDir filename : String) :
    ServeResult × List FsAccess :=
  let file_path := path_join downloadDir filename
  if fs.isFile file_path = false then
    (ServeResult.notFound, [FsAccess.isFileCheck file_path])
  else
    let resolved_file_path := fs.resolve file_path
    let resolved_dir := fs.resolve downloadDir
    if (str_startswith resolved_file_path resolved_dir) = false then
      (ServeResult.badRequest,
       [FsAccess.isFileCheck file_path, FsAccess.resolveCall file_path,
        FsAccess.resolveCall downloadDir])
    else
      (ServeResult.served file_path filename,
       [FsAccess.isFileCheck file_path, FsAccess.resolveCall file_path,
        FsAccess.resolveCall downloadDir, FsAccess.openFile file_path])

/-! ### Concrete fixtures used by counterexamples and witnesses -/

/-- A record that has reached the terminal status `completed`. -/
def completedTask : DownloadTask :=
  { id := "t1"
    url := "https://example.com/video1"
    format := some "mp4"
    quality := some "best"
    browser := none
    status := "completed"
    progress := { percent := 100, eta := "0s", speed := "N/A", status_message := "done" }
    info := none
    filepath := some "video.mp4"
    error := none
    startTime := 1
    endTime := some 5 }

def completedReg : Registry := [("t1", completedTask)]

/-- A record mid-download: non-terminal, `endTime` not yet written. -/
def runningTask : DownloadTask :=
  { id := "t2"
    url := "https://example.com/video2"
    format := some "mp4"
    quality := some "best"
    browser := none
    status := "downloading"
    progress := { percent := 40, eta := "10s", speed := "1MiB/s", status_message := "going" }
    info := none
    filepath := none
    error := none
    startTime := 2
    endTime := none }

def runningReg : Registry := [("t2", runningTask)]

/-- A freshly created record, as `initiate_download_task` inserts it. -/
def queuedTask : DownloadTask :=
  { id := "t3"
    url := "https://example.com/video3"
    format := some "mp4"
    quality := some "best"
    browser := none
    status := "queued"
    progress := { percent := 0, eta := "N/A", speed := "N/A", status_message := "Queued" }
    info := none
    filepath := none
    error := none
    startTime := 3
    endTime := none }

def queuedReg : Registry := [("t3", queuedTask)]

def sampleRequest : DownloadRequest :=
  { url := "https://example.com/video1"
    format := some "mp4"
    quality := some "bestvideo+bestaudio/best"
    browserForCookies := none
    proxy := none }

/-- Concrete filesystem for the artifact-retrieval scenarios: the download directory
resolves to itself, a `../` name resolves above it, and a sibling directory
`downloads-evil` exists next to `downloads`. -/
def exFs : FileSystem :=
  { isFile := fun p =>
      p == "/app/downloads/../secret.txt" ||
      p == "/app/downloads/../downloads-evil/x.bin" ||
      p == "/app/downloads/good.mp4"
    resolve := fun p =>
      if p == "/app/downloads/../secret.txt" then "/app/secret.txt"
      else if p == "/app/downloads/../downloads-evil/x.bin" then "/app/downloads-evil/x.bin"
      else p }

/-! ### Claim theorems -/

/-- **C1 counterexample.**  The claim says a record whose status is terminal
(`completed`) is never mutated again by the reporter methods.  On the code,
`ProgressReporter.set_status` has no terminal guard: a subsequent `set_status`
call on the completed record `t1` overwrites all four of `status`, `error`,
`filepath` and `endTime`, and a late `update_progress` still rewrites the
progress sub-record of the terminal record. -/
theorem second_terminal_report_overwrites :
    completedTask.status = "completed" ∧
    ((regGet (set_status completedReg "t1" "failed" (some "boom") none 9) "t1").map
        (fun t => (t.status, t.error, t.filepath, t.endTime))
      = some ("failed", some "boom", none, some 9)) ∧
    ((regGet (set_status completedReg "t1" "failed" (some "boom") none 9) "t1").map
        (fun t => (t.status, t.error, t.filepath, t.endTime))
      ≠ (regGet completedReg "t1").map
        (fun t => (t.status, t.error, t.filepath, t.endTime))) ∧
    ((regGet (update_progress completedReg "t1" 55 "1s" "2MiB/s" "late") "t1").map
        (fun t => t.progress.percent) = some 55) := by
  refine ⟨rfl, rfl, ?_, rfl⟩
  decide

/-- **C1 (amended).**  `update_progress` never changes the `status`, `error`,
`filepath` or `endTime` fields of any record (it only rewrites the `progress`
sub-record), while `set_status` — lacking any terminal guard — unconditionally
overwrites all four fields of the record whenever the id is present, terminal or
not.  (In the code's actual control flow `perform_download` issues at most one
terminal `set_status` per run, so the missing guard is not exercised there.) -/
theorem terminal_fields_after_reports (tasks : Registry) (task_id : String)
    (percent : Rat) (eta speed msg st : String) (err fp : Option String) (now : Nat) :
    ((regGet (update_progress tasks task_id percent eta speed msg) task_id).map
        (fun t => (t.status, t.error, t.filepath, t.endTime))
      = (regGet tasks task_id).map (fun t => (t.status, t.error, t.filepath, t.endTime))) ∧
    ((regGet (set_status tasks task_id st err fp now) task_id).map
        (fun t => (t.status, t.error, t.filepath, t.endTime))
      = (regGet tasks task_id).map (fun _ => (st, err, filepathStore fp, some now))) := by
  constructor
  · rw [regGet_update_progress]
    cases regGet tasks task_id <;> rfl
  · rw [regGet_set_status]
    cases regGet tasks task_id <;> rfl

/-- **C5 counterexample.**  The claim says `endTime` is written only on the
transition into `completed`/`failed`.  On the code, the `'finished'` progress hook
issues `reporter.set_status("post-processing")`, and `set_status` stamps
`task.endTime = datetime.utcnow()` on every call: the non-terminal
`post-processing` report writes `endTime` on a record that had none. -/
theorem post_processing_report_sets_endTime :
    runningTask.endTime = none ∧
    runningTask.status = "downloading" ∧
    ((regGet (apply_hook runningReg "t2" 7
        (HookEvent.finished { filepath_u := none, requested_downloads := none })) "t2").map
        (fun t => (t.status, t.endTime))
      = some ("post-processing", some 7)) :=
  ⟨rfl, rfl, rfl⟩

/-- **C5 (amended).**  `endTime` is written by every `set_status` call — including
the non-terminal `post-processing` phase report issued by the `'finished'` progress
hook — so a job that goes through post-processing has `endTime` written at
post-processing and again at the terminal transition; `update_progress` never
touches `endTime`. -/
theorem endTime_written_by_every_set_status (tasks : Registry) (task_id : String)
    (d : InfoDict) (now : Nat) (percent : Rat) (eta speed msg : String) :
    ((regGet (apply_hook tasks task_id now (HookEvent.finished d)) task_id).map
        DownloadTask.endTime = (regGet tasks task_id).map (fun _ => some now)) ∧
    (∀ st err fp, (regGet (set_status tasks task_id st err fp now) task_id).map
        DownloadTask.endTime = (regGet tasks task_id).map (fun _ => some now)) ∧
    ((regGet (update_progress tasks task_id percent eta speed msg) task_id).map
        DownloadTask.endTime = (regGet tasks task_id).map DownloadTask.endTime) := by
  refine ⟨?_, ?_, ?_⟩
  · rw [apply_hook_eq, regGet_mutate_self]
    cases regGet tasks task_id <;> rfl
  · intro st err fp
    rw [regGet_set_status]
    cases regGet tasks task_id <;> rfl
  · rw [regGet_update_progress]
    cases regGet tasks task_id <;> rfl

/-- **C7 counterexample.**  The claim says a progress report clamps/validates the
percent into [0,100] and sets the status to running.  On the code,
`update_progress` stores the percent exactly as given — a negative value is stored
negative — and never writes the `status` field: the record stays `queued`. -/
theorem negative_percent_stored_unclamped :
    ((regGet (update_progress queuedReg "t3" (-5) "N/A" "N/A" "msg") "t3").map
        (fun t => t.progress.percent) = some (-5)) ∧
    ((-5 : Rat) < 0) ∧
    ((regGet (update_progress queuedReg "t3" (-5) "N/A" "N/A" "msg") "t3").map
        DownloadTask.status = some "queued") := by
  refine ⟨rfl, by norm_num, rfl⟩

/-- **C7 (amended).**  `update_progress` stores the given percent without any
clamping or validation and leaves the record's `status` unchanged; the status
`"downloading"` (the code's realisation of the spec's `running`) is written once
by `perform_download` itself, before the collaborator is invoked, not by progress
reports. -/
theorem progress_report_stores_raw_percent (tasks : Registry) (task_id : String)
    (percent : Rat) (eta speed msg : String) :
    ((regGet (update_progress tasks task_id percent eta speed msg) task_id).map
        (fun t => t.progress.percent) = (regGet tasks task_id).map (fun _ => percent)) ∧
    ((regGet (update_progress tasks task_id percent eta speed msg) task_id).map
        DownloadTask.status = (regGet tasks task_id).map DownloadTask.status) ∧
    ((regGet (set_running tasks task_id) task_id).map DownloadTask.status
      = (regGet tasks task_id).map (fun _ => "downloading")) := by
  refine ⟨?_, ?_, ?_⟩
  · rw [regGet_update_progress]
    cases regGet tasks task_id <;> rfl
  · rw [regGet_update_progress]
    cases regGet tasks task_id <;> rfl
  · rw [regGet_set_running]
    cases regGet tasks task_id <;> rfl

/-- **C8.**  Whenever `set_status` stores a `filepath` into a record, the stored
value is `os.path.basename` of the reported path: it contains no path separator at
all, and in particular is not an absolute path (its first character is not `/`). -/
theorem stored_filepath_is_basename (tasks : Registry) (task_id st : String)
    (err fp : Option String) (now : Nat) (t' : DownloadTask) (s : String)
    (hget : regGet (set_status tasks task_id st err fp now) task_id = some t')
    (hfp : t'.filepath = some s) :
    ('/' ∉ s.data) ∧ s.data.head? ≠ some '/' := by
  rw [regGet_set_status] at hget
  cases h : regGet tasks task_id with
  | none =>
    rw [h] at hget
    exact absurd hget (by simp)
  | some t =>
    rw [h] at hget
    have ht' : t'.filepath = filepathStore fp := by
      cases hget' : hget
      rfl
    rw [ht'] at hfp
    have hs : ∃ p, s = basename p := by
      cases fp with
      | none => exact absurd hfp (by simp [filepathStore])
      | some p =>
        by_cases hp : p = ""
        · rw [filepathStore, if_pos hp] at hfp
          exact absurd hfp (by simp)
        · rw [filepathStore, if_neg hp] at hfp
          exact ⟨p, (Option.some_injective _ hfp).symm⟩
    obtain ⟨p, rfl⟩ := hs
    refine ⟨basename_no_slash p, ?_⟩
    intro hh
    cases hdata : (basename p).data with
    | nil => rw [hdata] at hh; exact absurd hh (by simp)
    | cons c cs =>
      rw [hdata] at hh
      have hc : c = '/' := by simpa using hh
      have : '/' ∈ (basename p).data := by
        rw [hdata, hc]
        exact List.mem_cons_self _ _
      exact basename_no_slash p this

/-- **C8 witness.** -/
theorem stored_filepath_is_basename_witness :
    '/' ∉ (basename "/app/downloads/video.mp4").data ∧
    (basename "/app/downloads/video.mp4").data.head? ≠ some '/' :=
  stored_filepath_is_basename runningReg "t2" "completed" none
    (some "/app/downloads/video.mp4") 9
    { runningTask with
      status := "completed"
      error := none
      filepath := filepathStore (some "/app/downloads/video.mp4")
      endTime := some 9 }
    (basename "/app/downloads/video.mp4") (by rfl) (by rfl)

/-- **C4.**  For a fresh (previously-unseen) id, `initiate_download_task` returns
that id, inserts exactly one new record — under the new id, with status `queued`
and zero progress, every other id mapping unchanged — and an immediate
`get_download_status` call returns that `queued`, zero-progress record. -/
theorem initiate_creates_queued_record (tasks : Registry) (request : DownloadRequest)
    (task_id : String) (now : Nat) (hfresh : regGet tasks task_id = none) :
    (initiate_download_task tasks task_id request now).1 = task_id ∧
    (∃ t, get_download_status (initiate_download_task tasks task_id request now).2 task_id
            = some t ∧ t.status = "queued" ∧ t.progress.percent = 0) ∧
    (initiate_download_task tasks task_id request now).2.length = tasks.length + 1 ∧
    (∀ other, other ≠ task_id →
        regGet (initiate_download_task tasks task_id request now).2 other
          = regGet tasks other) := by
  exact ⟨rfl, ⟨_, regGet_insert_self _ _ _, rfl, rfl⟩, rfl,
    fun other hother => regGet_insert_ne _ _ _ _ hother⟩

/-- **C4 witness.** -/
theorem initiate_creates_queued_record_witness :
    regGet ([] : Registry) "fresh-id" = none ∧
    (∃ t, get_download_status (initiate_download_task [] "fresh-id" sampleRequest 0).2 "fresh-id"
            = some t ∧ t.status = "queued" ∧ t.progress.percent = 0) :=
  ⟨rfl, (initiate_creates_queued_record [] sampleRequest "fresh-id" 0 rfl).2.1⟩

/-- **C9.**  A submit request with a missing or empty URL fails synchronously at
validation: no task id is returned and the registry is left exactly as it was, so
no orphan Job Record is created. -/
theorem empty_url_rejected_before_create (tasks : Registry) (raw : RawDownloadRequest)
    (fresh_id : String) (now : Nat) (h : raw.url = none ∨ raw.url = some "") :
    (start_download tasks raw fresh_id now).2 = tasks ∧
    (∃ e, (start_download tasks raw fresh_id now).1 = Except.error e) := by
  obtain ⟨url, fmt, q, b, pr⟩ := raw
  rcases h with h | h
  · cases h
    exact ⟨rfl, "field required: url", rfl⟩
  · cases h
    exact ⟨rfl, "invalid HttpUrl: empty", rfl⟩

/-- **C9 witness.** -/
theorem empty_url_rejected_before_create_witness :
    (start_download queuedReg
        { url := none, format := none, quality := none,
          browserForCookies := none, proxy := none } "f1" 4).2 = queuedReg ∧
    (∃ e, (start_download queuedReg
        { url := none, format := none, quality := none,
          browserForCookies := none, proxy := none } "f1" 4).1 = Except.error e) :=
  empty_url_rejected_before_create queuedReg
    { url := none, format := none, quality := none,
      browserForCookies := none, proxy := none } "f1" 4 (Or.inl rfl)

/-- **C3 counterexample.**  The claim says the path-traversal rejection happens
before any file-system access is made for the requested name.  On the code, the
handler's first action is `file_path.is_file()` — a filesystem stat on the very
name under suspicion — and only afterwards does it resolve the path and run the
traversal check: for the traversal name `../secret.txt` the request is indeed
rejected, but the access trace begins with the `is_file` probe (and two `resolve`
calls), all before the rejection. -/
theorem traversal_rejection_after_fs_probe :
    ((get_downloaded_file exFs "/app/downloads" "../secret.txt").1
        = ServeResult.badRequest) ∧
    ((get_downloaded_file exFs "/app/downloads" "../secret.txt").2
        = [FsAccess.isFileCheck "/app/downloads/../secret.txt",
           FsAccess.resolveCall "/app/downloads/../secret.txt",
           FsAccess.resolveCall "/app/downloads"]) := by
  constructor <;> rfl

/-- **C3 (amended).**  Artifact retrieval rejects (as a bad request) any existing
name whose resolved path fails the prefix test against the resolved download
directory, and the rejection happens before the file is opened — no `open` access
appears in the trace of a rejected request — but only after the `is_file`
existence probe on the requested name. -/
theorem traversal_guard_before_open (fs : FileSystem) (dir f : String)
    (hex : fs.isFile (path_join dir f) = true)
    (hout : str_startswith (fs.resolve (path_join dir f)) (fs.resolve dir) = false) :
    ((get_downloaded_file fs dir f).1 = ServeResult.badRequest) ∧
    ((get_downloaded_file fs dir f).2
        = [FsAccess.isFileCheck (path_join dir f),
           FsAccess.resolveCall (path_join dir f),
           FsAccess.resolveCall dir]) ∧
    (∀ p, FsAccess.openFile p ∉ (get_downloaded_file fs dir f).2) := by
  have hresult : get_downloaded_file fs dir f
      = (ServeResult.badRequest,
         [FsAccess.isFileCheck (path_join dir f),
          FsAccess.resolveCall (path_join dir f),
          FsAccess.resolveCall dir]) := by
    simp only [get_downloaded_file]
    rw [hex, hout]
    rfl
  refine ⟨by rw [hresult], by rw [hresult], ?_⟩
  intro p hp
  rw [hresult] at hp
  simp at hp

/-- **C3 (amended) witness.** -/
theorem traversal_guard_before_open_witness :
    ((get_downloaded_file exFs "/app/downloads" "../secret.txt").1
        = ServeResult.badRequest) ∧
    ((get_downloaded_file exFs "/app/downloads" "../secret.txt").2
        = [FsAccess.isFileCheck (path_join "/app/downloads" "../secret.txt"),
           FsAccess.resolveCall (path_join "/app/downloads" "../secret.txt"),
           FsAccess.resolveCall "/app/downloads"]) ∧
    (∀ p, FsAccess.openFile p ∉ (get_downloaded_file exFs "/app/downloads" "../secret.txt").2) :=
  traversal_guard_before_open exFs "/app/downloads" "../secret.txt" (by decide) (by decide)

/-- **C10.**  The traversal guard is a plain string-prefix test on resolved paths:
an existing file is served exactly when the string form of its resolved path starts
with the string form of the resolved download directory.  In particular (witness) a
file in the sibling directory `/app/downloads-evil` — whose resolved path extends
the string `/app/downloads` — passes the guard and is served. -/
theorem serve_guard_prefix_test_only (fs : FileSystem) (dir f : String)
    (hex : fs.isFile (path_join dir f) = true) :
    ((get_downloaded_file fs dir f).1 = ServeResult.served (path_join dir f) f
      ↔ str_startswith (fs.resolve (path_join dir f)) (fs.resolve dir) = true) := by
  constructor
  · intro hserved
    cases hsw : str_startswith (fs.resolve (path_join dir f)) (fs.resolve dir) with
    | true => rfl
    | false =>
      have : get_downloaded_file fs dir f
          = (ServeResult.badRequest,
             [FsAccess.isFileCheck (path_join dir f),
              FsAccess.resolveCall (path_join dir f),
              FsAccess.resolveCall dir]) := by
        simp only [get_downloaded_file]
        rw [hex, hsw]
        rfl
      rw [this] at hserved
      exact absurd hserved (by simp)
  · intro hsw
    simp only [get_downloaded_file]
    rw [hex, hsw]
    rfl

/-- **C10 witness:** the sibling-directory name passes the prefix guard and the
file is served. -/
theorem serve_guard_prefix_test_only_witness :
    exFs.isFile (path_join "/app/downloads" "../downloads-evil/x.bin") = true ∧
    (str_startswith (exFs.resolve (path_join "/app/downloads" "../downloads-evil/x.bin"))
        (exFs.resolve "/app/downloads") = true) ∧
    ((get_downloaded_file exFs "/app/downloads" "../downloads-evil/x.bin").1
        = ServeResult.served (path_join "/app/downloads" "../downloads-evil/x.bin")
            "../downloads-evil/x.bin") :=
  ⟨by decide, by decide,
   (serve_guard_prefix_test_only exFs "/app/downloads" "../downloads-evil/x.bin"
      (by decide)).mpr (by decide)⟩

/-- When the task is present, `perform_download` is: mark downloading, run the
hooks, then finish the run. -/
theorem perform_download_eq (tasks : Registry) (task_id : String) (t : DownloadTask)
    (outcome : CollabOutcome) (fallback : Option String) (now : Nat)
    (h : regGet tasks task_id = some t) :
    perform_download tasks task_id outcome fallback now
      = finish_run
          (outcome.events.foldl (fun r e => apply_hook r task_id now e)
            (set_running tasks task_id))
          task_id outcome fallback now := by
  rw [perform_download.eq_def, h]

/-- A run in which the background unit's try-block fails: either the collaborator
raised (with exception text `msg`), or it returned normally but the final-path
resolution produced a falsy value (`None` or the empty string) so the line-254
exception fires. -/
def run_failsB (outcome : CollabOutcome) (fallback : Option String) : Bool :=
  match outcome with
  | CollabOutcome.err _ _ => true
  | CollabOutcome.ok events =>
    match resolve_final_path (final_info events) fallback with
    | none => true
    | some p => p == ""

/-- **C2.**  Every failure inside `perform_download` — a collaborator exception
(whose `str` is non-empty, as the collaborator boundary guarantees a human-readable
message) or an unresolvable final path after all fallback strategies — is caught at
the unit boundary and recorded as a terminal `failed` record carrying a non-empty
error message.  (That the embedding of `perform_download` is a total function is
the formal counterpart of "no exception propagates out of the unit": each raising
path of the source ends in one of the `except` clauses' `set_status("failed", ...)`
calls.) -/
theorem failed_outcome_recorded (tasks : Registry) (task_id : String) (t : DownloadTask)
    (outcome : CollabOutcome) (fallback : Option String) (now : Nat)
    (hpresent : regGet tasks task_id = some t)
    (hfail : run_failsB outcome fallback = true)
    (hmsg : ∀ es m, outcome = CollabOutcome.err es m → m ≠ "") :
    ∃ m, ((regGet (perform_download tasks task_id outcome fallback now) task_id).map
            DownloadTask.status = some "failed") ∧
         ((regGet (perform_download tasks task_id outcome fallback now) task_id).map
            DownloadTask.error = some (some m)) ∧
         m ≠ "" := by
  rw [perform_download_eq tasks task_id t outcome fallback now hpresent]
  have ht1 : regGet (set_running tasks task_id) task_id
      = some { t with status := "downloading" } := by
    rw [regGet_set_running, hpresent]
    rfl
  have ht2 : regGet (outcome.events.foldl (fun r e => apply_hook r task_id now e)
      (set_running tasks task_id)) task_id
      = some (outcome.events.foldl (fun t e => hookFn now e t)
          { t with status := "downloading" }) := by
    rw [regGet_hook_foldl, ht1]
    rfl
  cases outcome with
  | err es msg =>
    refine ⟨msg, ?_, ?_, hmsg es msg rfl⟩
    · rw [finish_run, regGet_set_status, ht2]
      rfl
    · rw [finish_run, regGet_set_status, ht2]
      rfl
  | ok events =>
    refine ⟨unresolvedPathMsg, ?_, ?_, by decide⟩ <;>
    · rw [finish_run]
      cases hres : resolve_final_path (final_info events) fallback with
      | none =>
        rw [report_final, regGet_set_status, ht2]
        rfl
      | some p =>
        have hp : p = "" := by
          rw [run_failsB, hres] at hfail
          exact eq_of_beq hfail
        rw [report_final, if_pos hp, regGet_set_status, ht2]
        rfl

/-- **C2 witness.** -/
theorem failed_outcome_recorded_witness :
    ∃ m, ((regGet (perform_download queuedReg "t3"
              (CollabOutcome.err [] "Network error") none 4) "t3").map
            DownloadTask.status = some "failed") ∧
         ((regGet (perform_download queuedReg "t3"
              (CollabOutcome.err [] "Network error") none 4) "t3").map
            DownloadTask.error = some (some m)) ∧
         m ≠ "" :=
  failed_outcome_recorded queuedReg "t3" queuedTask
    (CollabOutcome.err [] "Network error") none 4 rfl rfl
    (by intro es m h; cases h; decide)

/-- The status observed in the run's terminal state, made explicit. -/
theorem run_trace_eq (tasks : Registry) (task_id : String) (outcome : CollabOutcome)
    (fallback : Option String) (now : Nat) (t : DownloadTask)
    (h : regGet tasks task_id = some t) :
    run_trace tasks task_id outcome fallback now
      = (set_running tasks task_id
          :: hook_states (set_running tasks task_id) task_id now outcome.events)
        ++ [finish_run
              (outcome.events.foldl (fun r e => apply_hook r task_id now e)
                (set_running tasks task_id))
              task_id outcome fallback now] := by
  rw [run_trace.eq_def, h]

/-- **C6.**  Over a run of `perform_download` on a freshly queued record, every
status a poller can observe is one of the five
`queued / downloading / post-processing / completed / failed` (the code realises
the spec's `running` as the string `"downloading"` and its `post_processing` as
`"post-processing"`), and the observed sequence is non-decreasing in the ordering
`queued < downloading ≤ post-processing < {completed, failed}`: the status never
regresses. -/
theorem status_valid_and_monotone (tasks : Registry) (task_id : String)
    (outcome : CollabOutcome) (fallback : Option String) (now : Nat) (t : DownloadTask)
    (h : regGet tasks task_id = some t) (hq : t.status = "queued") :
    (∀ s ∈ (t.status :: observed_statuses tasks task_id outcome fallback now),
        s ∈ (["queued", "downloading", "post-processing", "completed", "failed"]
              : List String)) ∧
    List.Chain' (fun a b => statusRank a ≤ statusRank b)
      (t.status :: observed_statuses tasks task_id outcome fallback now) := by
  have ht1 : regGet (set_running tasks task_id) task_id
      = some { t with status := "downloading" } := by
    rw [regGet_set_running, h]
    rfl
  have hd1 : statusD task_id (set_running tasks task_id) = "downloading" := by
    rw [statusD, ht1]
    rfl
  have ht2 : regGet (outcome.events.foldl (fun r e => apply_hook r task_id now e)
      (set_running tasks task_id)) task_id
      = some (outcome.events.foldl (fun t e => hookFn now e t)
          { t with status := "downloading" }) := by
    rw [regGet_hook_foldl, ht1]
    rfl
  obtain ⟨hsmem, hschain⟩ :=
    hook_states_status task_id now outcome.events (set_running tasks task_id)
      { t with status := "downloading" } ht1 (Or.inl rfl)
  have hfin := finish_run_status _ task_id outcome fallback now _ ht2
  have hobs : observed_statuses tasks task_id outcome fallback now
      = (statusD task_id (set_running tasks task_id)
          :: (hook_states (set_running tasks task_id) task_id now outcome.events).map
              (statusD task_id))
        ++ [statusD task_id
              (finish_run
                (outcome.events.foldl (fun r e => apply_hook r task_id now e)
                  (set_running tasks task_id))
                task_id outcome fallback now)] := by
    rw [observed_statuses, run_trace_eq tasks task_id outcome fallback now t h,
      List.map_append, List.map_cons]
    rfl
  rw [hobs, hq, hd1]
  constructor
  · intro s hs
    rcases List.mem_cons.mp hs with rfl | hs
    · simp
    rcases List.mem_append.mp hs with hs | hs
    · rcases List.mem_cons.mp hs with rfl | hs
      · simp
      · rcases hsmem s hs with rfl | rfl <;> simp
    · have : s = statusD task_id (finish_run
          (outcome.events.foldl (fun r e => apply_hook r task_id now e)
            (set_running tasks task_id)) task_id outcome fallback now) := by
        simpa using hs
      rcases hfin with hf | hf <;> rw [this, hf] <;> simp
  · rw [← List.cons_append]
    refine List.Chain'.append ?_ (List.chain'_singleton _) ?_
    · rw [List.chain'_cons]
      refine ⟨by decide, ?_⟩
      have : ({ t with status := "downloading" } : DownloadTask).status
          = "downloading" := rfl
      rw [← this]
      exact hschain
    · intro x hx y hy
      have hxmem : x ∈ "queued" :: "downloading"
          :: (hook_states (set_running tasks task_id) task_id now outcome.events).map
              (statusD task_id) := by
        obtain ⟨hne, hxl⟩ := List.mem_getLast?_eq_getLast hx
        rw [hxl]
        exact List.getLast_mem hne
      have hxrank : statusRank x ≤ 2 := by
        rcases List.mem_cons.mp hxmem with rfl | hxmem
        · decide
        rcases List.mem_cons.mp hxmem with rfl | hxmem
        · decide
        rcases hsmem x hxmem with rfl | rfl <;> decide
      have hyrank : statusRank y = 3 := by
        have hy' : y = statusD task_id (finish_run
            (outcome.events.foldl (fun r e => apply_hook r task_id now e)
              (set_running tasks task_id)) task_id outcome fallback now) := by
          exact (by simpa using hy : _ = y).symm
        rcases hfin with hf | hf <;> rw [hy', hf] <;> decide
      rw [hyrank]
      exact le_trans hxrank (by norm_num)

/-- A sample collaborator run for the C6 witness: one progress callback, then the
`finished` callback, then a normal return with a resolvable path. -/
def outcomeEx : CollabOutcome :=
  CollabOutcome.ok
    [HookEvent.downloading 50 "50.0" "10s" "1MiB/s" "f.mp4",
     HookEvent.finished { filepath_u := some "/app/downloads/f.mp4",
                          requested_downloads := none }]

/-- **C6 witness.** -/
theorem status_valid_and_monotone_witness :
    (∀ s ∈ (queuedTask.status :: observed_statuses queuedReg "t3" outcomeEx none 4),
        s ∈ (["queued", "downloading", "post-processing", "completed", "failed"]
              : List String)) ∧
    List.Chain' (fun a b => statusRank a ≤ statusRank b)
      (queuedTask.status :: observed_statuses queuedReg "t3" outcomeEx none 4) :=
  status_valid_and_monotone queuedReg "t3" outcomeEx none 4 queuedTask rfl rfl
